import Mathlib

/-!
# Verification of the EV-Status-Dashboard vehicle API service

Shallow embedding of `src/vehicle-api-service/main.py`: the vehicle state
record, the background simulation tick (`update_vehicle_state` loop body),
and the three command handlers (`set_motor_speed`, `toggle_charging`,
`reset_state`).

Python floats are modelled as rationals (the arithmetic involved is
clamping, table lookups and additions of decimal constants).  The
nondeterministic inputs of a tick — the two pseudo-random indicator flips
and the wall-clock time — are passed in as explicit parameters.
`datetime.now()` is modelled as a natural-number timestamp supplied to each
handler; a handler that never reads the clock simply ignores it, exactly as
the Python code does.
-/

namespace EV

/-- `MIN_BATTERY_THRESHOLD = 20` from main.py. -/
def MIN_BATTERY_THRESHOLD : ℚ := 20

/-- `HIGH_RPM_THRESHOLD = 3000` from main.py. -/
def HIGH_RPM_THRESHOLD : ℕ := 3000

/-- `MAX_TEMPERATURE = 80` from main.py. -/
def MAX_TEMPERATURE : ℚ := 80

/-- `MIN_TEMPERATURE = 25` from main.py. -/
def MIN_TEMPERATURE : ℚ := 25

/-- `POWER_CONSUMPTION_RATE` lookup table from main.py.  The Python dict has
exactly the keys 0..4; every use is guarded by a membership check on the
speed setting, so the catch-all value is never reached on guarded paths. -/
def POWER_CONSUMPTION_RATE : ℕ → ℚ
  | 0 => 0
  | 1 => 100
  | 2 => 300
  | 3 => 600
  | 4 => 1000
  | _ => 0

/-- `RPM_SETTINGS` lookup table from main.py. -/
def RPM_SETTINGS : ℕ → ℕ
  | 0 => 0
  | 1 => 1500
  | 2 => 3000
  | 3 => 4500
  | 4 => 6000
  | _ => 0

/-- `GEAR_RATIOS` lookup table from main.py. -/
def GEAR_RATIOS : ℕ → String
  | 0 => "N/N"
  | 1 => "4.5:1"
  | 2 => "6.2:1"
  | 3 => "8.1:1"
  | 4 => "10.3:1"
  | _ => "N/N"

/-- The `vehicle_state` record of main.py. -/
structure VehicleState where
  parking_brake : Bool
  check_engine : Bool
  motor_status : Bool
  battery_low : Bool
  power : ℚ
  motor_rpm : ℕ
  gear_ratio : String
  battery_percentage : ℚ
  battery_temperature : ℚ
  motor_speed_setting : ℕ
  is_charging : Bool
  last_update : ℕ
  deriving DecidableEq, Repr

/-- The default vehicle state (the literal assigned to `vehicle_state` at
module load, also the dict built by `reset_state`), with `last_update` the
time of creation. -/
def default_state (now : ℕ) : VehicleState where
  parking_brake := false
  check_engine := false
  motor_status := false
  battery_low := false
  power := 0
  motor_rpm := 0
  gear_ratio := "N/N"
  battery_percentage := 100
  battery_temperature := 25
  motor_speed_setting := 0
  is_charging := false
  last_update := now

/-- `calculate_power_consumption(speed_setting, battery_percentage)` from
main.py. -/
def calculate_power_consumption (speed_setting : ℕ) (battery_percentage : ℚ) : ℚ :=
  if battery_percentage ≤ 0 then 0
  else
    let base_power := POWER_CONSUMPTION_RATE speed_setting
    let battery_factor := max 0.5 (battery_percentage / 100)
    base_power * battery_factor

/-- The battery/temperature physics of one simulation tick: the
`if ... elif ... ` chain at the top of the `while True` body of
`update_vehicle_state` in main.py (drain-and-heat while driving, charge-
and-cool while charging, no change when idle). -/
def tick_physics (s : VehicleState) : VehicleState :=
  if !s.is_charging && s.motor_speed_setting > 0 then
    let power_consumption :=
      calculate_power_consumption s.motor_speed_setting s.battery_percentage
    let consumption_rate := power_consumption * 0.001 * 1
    let s := { s with battery_percentage := max 0 (s.battery_percentage - consumption_rate) }
    let target_temp :=
      MIN_TEMPERATURE + (MAX_TEMPERATURE - MIN_TEMPERATURE) * s.motor_speed_setting / 4
    if s.battery_temperature < target_temp then
      { s with battery_temperature := min target_temp (s.battery_temperature + 0.1) }
    else s
  else if s.is_charging then
    let charge_rate : ℚ := if s.battery_percentage < 20 then 0.4 else 0.2
    { s with
      battery_percentage := min 100 (s.battery_percentage + charge_rate),
      battery_temperature := max MIN_TEMPERATURE (s.battery_temperature - 0.05) }
  else s

/-- One iteration of the `while True` body of `update_vehicle_state` in
main.py (the simulation tick): physics, then the indicator recomputation,
then the two random indicator flips, then the timestamp.  `flip_brake` and
`flip_engine` are the outcomes of the two `random.random() < p` draws;
`now` is `datetime.now()`.  The Firestore write and the broadcast
bookkeeping have no effect on the state record and are omitted. -/
def tick (flip_brake flip_engine : Bool) (now : ℕ) (s : VehicleState) : VehicleState :=
  let s := tick_physics s
  let s := { s with
    battery_low := decide (s.battery_percentage < MIN_BATTERY_THRESHOLD),
    motor_status := decide (s.motor_rpm > HIGH_RPM_THRESHOLD) }
  let s := if flip_brake then { s with parking_brake := !s.parking_brake } else s
  let s := if flip_engine then { s with check_engine := !s.check_engine } else s
  { s with last_update := now }

/-- The distinct error responses the command handlers can return (each is a
distinct `jsonify({"error": ...}), 400` in main.py). -/
inductive ApiError
  | invalidJson
  | invalidSpeed
  | chargingActive
  | batteryDepleted
  | parkingBrakeEngaged
  | motorRunning
  | batteryFull
  deriving DecidableEq, Repr

/-- Success payload of `set_motor_speed`: the `current_speed`, `rpm` and
`power` fields of its 200 response. -/
structure SpeedResponse where
  current_speed : ℕ
  rpm : ℕ
  power : ℚ
  deriving DecidableEq, Repr

/-- Success payload of `toggle_charging`: the `is_charging` and
`battery_percentage` fields of its 200 response. -/
structure ChargingResponse where
  is_charging : Bool
  battery_percentage : ℚ
  deriving DecidableEq, Repr

/-- The core of `set_motor_speed` in main.py, after JSON extraction:
validation, precondition checks, state mutation, response.  The handler
never reads the clock, so `_now` is unused. -/
def set_motor_speed (_now : ℕ) (speed_setting : ℕ) (s : VehicleState) :
    Except ApiError (SpeedResponse × VehicleState) :=
  if speed_setting ∉ ([0, 1, 2, 3, 4] : List ℕ) then
    .error .invalidSpeed
  else if s.is_charging then
    .error .chargingActive
  else if s.battery_percentage ≤ 0 then
    .error .batteryDepleted
  else if s.parking_brake then
    .error .parkingBrakeEngaged
  else
    let s' := { s with
      motor_speed_setting := speed_setting,
      motor_rpm := RPM_SETTINGS speed_setting,
      power := calculate_power_consumption speed_setting s.battery_percentage,
      motor_status := decide (RPM_SETTINGS speed_setting > HIGH_RPM_THRESHOLD),
      gear_ratio := GEAR_RATIOS speed_setting }
    .ok (⟨speed_setting, s'.motor_rpm, s'.power⟩, s')

/-- The core of `toggle_charging` in main.py, after JSON extraction.  The
handler never reads the clock, so `_now` is unused. -/
def toggle_charging (_now : ℕ) (is_charging : Bool) (s : VehicleState) :
    Except ApiError (ChargingResponse × VehicleState) :=
  if s.motor_speed_setting > 0 ∧ is_charging then
    .error .motorRunning
  else if s.battery_percentage ≥ 100 ∧ is_charging then
    .error .batteryFull
  else
    let s' :=
      if is_charging then
        { s with
          is_charging := is_charging,
          motor_speed_setting := 0,
          motor_rpm := 0,
          power := -5 }
      else
        { s with is_charging := is_charging, power := 0 }
    .ok (⟨is_charging, s'.battery_percentage⟩, s')

/-- `reset_state` in main.py: unconditionally rebinds `vehicle_state` to the
default dict, with `last_update = datetime.now()`. -/
def reset_state (now : ℕ) (_s : VehicleState) : VehicleState :=
  default_state now

/-- The events that mutate the shared state record: a simulation tick or one
of the three commands. -/
inductive Cmd
  | tick (flip_brake flip_engine : Bool)
  | setSpeed (speed : ℕ)
  | toggleCharging (charging : Bool)
  | reset
  deriving DecidableEq, Repr

/-- Effect of one event on the state.  A command whose handler returns a 400
error leaves the record untouched (the Python handlers return before any
mutation). -/
def step (now : ℕ) (c : Cmd) (s : VehicleState) : VehicleState :=
  match c with
  | .tick fb fe => tick fb fe now s
  | .setSpeed speed =>
      match set_motor_speed now speed s with
      | .ok (_, s') => s'
      | .error _ => s
  | .toggleCharging b =>
      match toggle_charging now b s with
      | .ok (_, s') => s'
      | .error _ => s
  | .reset => reset_state now s

/-- Run a timed sequence of events. -/
def run : List (ℕ × Cmd) → VehicleState → VehicleState
  | [], s => s
  | (t, c) :: rest, s => run rest (step t c s)

/-- A state is reachable when some sequence of ticks and commands produces
it from the default state. -/
def Reachable (s : VehicleState) : Prop :=
  ∃ tr t₀, s = run tr (default_state t₀)

/-- The spec's error taxonomy classifies `Invalid JSON payload` and
`Invalid speed setting` as `InvalidArgument`. -/
def isInvalidArgument : ApiError → Bool
  | .invalidJson => true
  | .invalidSpeed => true
  | _ => false

/-- The spec's error taxonomy classifies the five state-conflict errors as
`PreconditionFailed`. -/
def isPreconditionFailed : ApiError → Bool
  | .chargingActive => true
  | .batteryDepleted => true
  | .parkingBrakeEngaged => true
  | .motorRunning => true
  | .batteryFull => true
  | _ => false

/-- The exact `{"error": ...}` message string each handler returns in
main.py. -/
def errorMessage : ApiError → String
  | .invalidJson => "Invalid JSON payload"
  | .invalidSpeed => "Invalid speed setting (must be 0-4)"
  | .chargingActive => "Cannot change speed while charging"
  | .batteryDepleted => "Battery depleted"
  | .parkingBrakeEngaged => "Cannot operate motor while parking brake is engaged"
  | .motorRunning => "Cannot start charging while motor is running"
  | .batteryFull => "Battery is already full"

/-- A JSON scalar appearing as a field value of a request object.  Values
are modelled up to the two aspects the handlers inspect: integer identity
(for the `speed` membership test and dict lookup, where Python `True == 1`
and `False == 0`) and truthiness (for `charging`). -/
inductive JsonValue
  | int (i : ℤ)
  | bool (b : Bool)
  deriving DecidableEq, Repr

/-- Outcome of parsing a POST body, as seen by the handlers.
`notJson`: `request.get_json()` raises (unparseable body or wrong content
type); the surrounding `except Exception` turns this into a 500.
`null`: the body is the JSON literal `null`; `get_json()` returns `None`
and the handler answers `400 Invalid JSON payload`.
`nonObject`: the body parses to a non-dict (array, string, number);
`data.get(...)` raises `AttributeError`, caught as a 500.
`obj fields`: the body is a JSON object. -/
inductive JsonBody
  | notJson
  | null
  | nonObject
  | obj (fields : List (String × JsonValue))
  deriving DecidableEq, Repr

/-- Python `data.get(key, default)` on a parsed JSON object. -/
def pyGet (fields : List (String × JsonValue)) (key : String) (dflt : JsonValue) : JsonValue :=
  match fields.lookup key with
  | some v => v
  | none => dflt

/-- An HTTP response of a command endpoint: a 200 payload, a 400
`{"error": msg}`, or a 500 `{"error": "Internal server error"}`. -/
inductive HttpResponse (α : Type)
  | ok (payload : α)
  | clientError (msg : String)
  | internalError
  deriving DecidableEq, Repr

/-- Turn a core command outcome into the HTTP response and resulting state
(an error leaves the state untouched). -/
def liftResult {α : Type} :
    Except ApiError (α × VehicleState) → VehicleState → HttpResponse α × VehicleState
  | .ok (r, s'), _ => (.ok r, s')
  | .error e, s => (.clientError (errorMessage e), s)

/-- Python `speed_setting not in [0, 1, 2, 3, 4]`, returning for a member
the dict key it selects (Python booleans compare and hash equal to 0/1, so
`True` selects key 1). -/
def speedIndex : JsonValue → Option ℕ
  | .int i => if 0 ≤ i ∧ i ≤ 4 then some i.toNat else none
  | .bool b => some (if b then 1 else 0)

/-- Python truthiness of a JSON scalar. -/
def jsonTruthy : JsonValue → Bool
  | .int i => decide (i ≠ 0)
  | .bool b => b

/-- The full `set_motor_speed` Flask handler of main.py, from parsed
request body to HTTP response: JSON extraction with `data.get('speed', 0)`
followed by the core command. -/
def http_set_motor_speed (now : ℕ) (body : JsonBody) (s : VehicleState) :
    HttpResponse SpeedResponse × VehicleState :=
  match body with
  | .notJson => (.internalError, s)
  | .null => (.clientError (errorMessage .invalidJson), s)
  | .nonObject => (.internalError, s)
  | .obj fields =>
      match speedIndex (pyGet fields "speed" (.int 0)) with
      | none => (.clientError (errorMessage .invalidSpeed), s)
      | some speed => liftResult (set_motor_speed now speed s) s

/-- The full `toggle_charging` Flask handler of main.py, from parsed
request body to HTTP response: JSON extraction with
`data.get('charging', False)` (the value is used through its truthiness)
followed by the core command. -/
def http_toggle_charging (now : ℕ) (body : JsonBody) (s : VehicleState) :
    HttpResponse ChargingResponse × VehicleState :=
  match body with
  | .notJson => (.internalError, s)
  | .null => (.clientError (errorMessage .invalidJson), s)
  | .nonObject => (.internalError, s)
  | .obj fields =>
      liftResult (toggle_charging now (jsonTruthy (pyGet fields "charging" (.bool false))) s) s

/-- A driving state used as a concrete witness input: the default state
after `SetMotorSpeed(3)`. -/
def driving_state : VehicleState :=
  { default_state 0 with
    motor_speed_setting := 3, motor_rpm := 4500, power := 600,
    motor_status := true, gear_ratio := "8.1:1" }

/-- A charging state used as a concrete witness input: half-full battery
with charging on. -/
def charging_state : VehicleState :=
  { default_state 0 with is_charging := true, battery_percentage := 50, power := -5 }

/-! ## Helper lemmas -/

lemma POWER_CONSUMPTION_RATE_nonneg (n : ℕ) : 0 ≤ POWER_CONSUMPTION_RATE n := by
  unfold POWER_CONSUMPTION_RATE
  split <;> norm_num

lemma calculate_power_consumption_nonneg (sp : ℕ) (b : ℚ) :
    0 ≤ calculate_power_consumption sp b := by
  unfold calculate_power_consumption
  split
  · exact le_rfl
  · exact mul_nonneg (POWER_CONSUMPTION_RATE_nonneg sp)
      (le_trans (by norm_num) (le_max_left 0.5 (b / 100)))

lemma mem_speed_list (sp : ℕ) : sp ∈ ([0, 1, 2, 3, 4] : List ℕ) ↔ sp ≤ 4 := by
  simp only [List.mem_cons, List.not_mem_nil, or_false]
  omega

lemma mem_speed_finset (sp : ℕ) : sp ∈ ({0, 1, 2, 3, 4} : Finset ℕ) ↔ sp ≤ 4 := by
  simp only [Finset.mem_insert, Finset.mem_singleton]
  omega

lemma tick_physics_fields (s : VehicleState) :
    (tick_physics s).parking_brake = s.parking_brake ∧
    (tick_physics s).check_engine = s.check_engine ∧
    (tick_physics s).motor_status = s.motor_status ∧
    (tick_physics s).battery_low = s.battery_low ∧
    (tick_physics s).power = s.power ∧
    (tick_physics s).motor_rpm = s.motor_rpm ∧
    (tick_physics s).gear_ratio = s.gear_ratio ∧
    (tick_physics s).motor_speed_setting = s.motor_speed_setting ∧
    (tick_physics s).is_charging = s.is_charging ∧
    (tick_physics s).last_update = s.last_update := by
  simp only [tick_physics]
  split_ifs <;> simp

lemma tick_physics_driving (s : VehicleState) (hc : s.is_charging = false)
    (hm : 0 < s.motor_speed_setting) :
    (tick_physics s).battery_percentage =
      max 0 (s.battery_percentage -
        calculate_power_consumption s.motor_speed_setting s.battery_percentage * 0.001 * 1) ∧
    (tick_physics s).battery_temperature =
      (if s.battery_temperature <
          MIN_TEMPERATURE + (MAX_TEMPERATURE - MIN_TEMPERATURE) * s.motor_speed_setting / 4
       then
        min (MIN_TEMPERATURE + (MAX_TEMPERATURE - MIN_TEMPERATURE) * s.motor_speed_setting / 4)
          (s.battery_temperature + 0.1)
       else s.battery_temperature) := by
  simp [tick_physics, hc, hm]
  split_ifs <;> simp

lemma tick_physics_charging (s : VehicleState) (hc : s.is_charging = true) :
    (tick_physics s).battery_percentage =
      min 100 (s.battery_percentage + if s.battery_percentage < 20 then 0.4 else 0.2) ∧
    (tick_physics s).battery_temperature =
      max MIN_TEMPERATURE (s.battery_temperature - 0.05) := by
  simp [tick_physics, hc]

lemma tick_physics_idle (s : VehicleState) (hc : s.is_charging = false)
    (hm : s.motor_speed_setting = 0) : tick_physics s = s := by
  simp [tick_physics, hc, hm]

lemma tick_physics_battery_bounds (s : VehicleState)
    (h0 : 0 ≤ s.battery_percentage) (h1 : s.battery_percentage ≤ 100) :
    0 ≤ (tick_physics s).battery_percentage ∧ (tick_physics s).battery_percentage ≤ 100 := by
  have hpow := calculate_power_consumption_nonneg s.motor_speed_setting s.battery_percentage
  cases hc : s.is_charging with
  | false =>
    rcases Nat.eq_zero_or_pos s.motor_speed_setting with hm | hm
    · rw [tick_physics_idle s hc hm]
      exact ⟨h0, h1⟩
    · rw [(tick_physics_driving s hc hm).1]
      constructor
      · exact le_max_left 0 _
      · refine max_le (by norm_num) ?_
        nlinarith
  | true =>
    rw [(tick_physics_charging s hc).1]
    constructor
    · refine le_min (by norm_num) ?_
      split_ifs <;> linarith
    · exact min_le_left 100 _

lemma tick_physics_temperature_bounds (s : VehicleState)
    (h0 : 25 ≤ s.battery_temperature) (h1 : s.battery_temperature ≤ 80)
    (hsp : s.motor_speed_setting ≤ 4) :
    25 ≤ (tick_physics s).battery_temperature ∧ (tick_physics s).battery_temperature ≤ 80 := by
  have hc0 : (0 : ℚ) ≤ (s.motor_speed_setting : ℚ) := Nat.cast_nonneg _
  have hc4 : (s.motor_speed_setting : ℚ) ≤ 4 := by exact_mod_cast hsp
  cases hc : s.is_charging with
  | false =>
    rcases Nat.eq_zero_or_pos s.motor_speed_setting with hm | hm
    · rw [tick_physics_idle s hc hm]
      exact ⟨h0, h1⟩
    · rw [(tick_physics_driving s hc hm).2]
      simp only [MIN_TEMPERATURE, MAX_TEMPERATURE]
      split_ifs with h2
      · constructor
        · refine le_min (by linarith) (by linarith)
        · refine le_trans (min_le_left _ _) (by linarith)
      · exact ⟨h0, h1⟩
  | true =>
    rw [(tick_physics_charging s hc).2]
    simp only [MIN_TEMPERATURE]
    constructor
    · exact le_max_left 25 _
    · exact max_le (by norm_num) (by linarith)

/-- The inductive invariant of the vehicle state record: field bounds, the
charging/motor mutual exclusion, and the derived-field consistency
equations. -/
structure Inv (s : VehicleState) : Prop where
  battery_lb : 0 ≤ s.battery_percentage
  battery_ub : s.battery_percentage ≤ 100
  temp_lb : 25 ≤ s.battery_temperature
  temp_ub : s.battery_temperature ≤ 80
  speed_ub : s.motor_speed_setting ≤ 4
  mutex : ¬(0 < s.motor_speed_setting ∧ s.is_charging = true)
  rpm_eq : s.motor_rpm = RPM_SETTINGS s.motor_speed_setting
  status_eq : s.motor_status = decide (s.motor_rpm > HIGH_RPM_THRESHOLD)
  low_eq : s.battery_low = decide (s.battery_percentage < MIN_BATTERY_THRESHOLD)

lemma inv_default (now : ℕ) : Inv (default_state now) := by
  constructor <;> simp [default_state, RPM_SETTINGS, HIGH_RPM_THRESHOLD, MIN_BATTERY_THRESHOLD] <;>
    norm_num

lemma tick_fields (fb fe : Bool) (now : ℕ) (s : VehicleState) :
    (tick fb fe now s).battery_percentage = (tick_physics s).battery_percentage ∧
    (tick fb fe now s).battery_temperature = (tick_physics s).battery_temperature ∧
    (tick fb fe now s).motor_speed_setting = s.motor_speed_setting ∧
    (tick fb fe now s).is_charging = s.is_charging ∧
    (tick fb fe now s).motor_rpm = s.motor_rpm ∧
    (tick fb fe now s).gear_ratio = s.gear_ratio ∧
    (tick fb fe now s).power = s.power ∧
    (tick fb fe now s).battery_low =
      decide ((tick_physics s).battery_percentage < MIN_BATTERY_THRESHOLD) ∧
    (tick fb fe now s).motor_status = decide (s.motor_rpm > HIGH_RPM_THRESHOLD) ∧
    (tick fb fe now s).last_update = now := by
  obtain ⟨h1, h2, h3, h4, h5, h6, h7, h8, h9, h10⟩ := tick_physics_fields s
  simp only [tick]
  split_ifs <;> simp_all

lemma inv_tick (fb fe : Bool) (now : ℕ) (s : VehicleState) (h : Inv s) :
    Inv (tick fb fe now s) := by
  obtain ⟨hb, ht, hsp, hchg, hrpm, hgr, hpw, hlow, hstat, hlu⟩ := tick_fields fb fe now s
  obtain ⟨b0, b1⟩ := tick_physics_battery_bounds s h.battery_lb h.battery_ub
  obtain ⟨t0, t1⟩ := tick_physics_temperature_bounds s h.temp_lb h.temp_ub h.speed_ub
  constructor
  · rw [hb]; exact b0
  · rw [hb]; exact b1
  · rw [ht]; exact t0
  · rw [ht]; exact t1
  · rw [hsp]; exact h.speed_ub
  · rw [hsp, hchg]; exact h.mutex
  · rw [hrpm, hsp]; exact h.rpm_eq
  · rw [hstat, hrpm]
  · rw [hlow, hb]

lemma set_motor_speed_ok_elim {now sp : ℕ} {s : VehicleState} {r : SpeedResponse}
    {s' : VehicleState} (h : set_motor_speed now sp s = .ok (r, s')) :
    sp ≤ 4 ∧ s.is_charging = false ∧ ¬s.battery_percentage ≤ 0 ∧ s.parking_brake = false ∧
      r = ⟨sp, RPM_SETTINGS sp, calculate_power_consumption sp s.battery_percentage⟩ ∧
      s' = { s with
        motor_speed_setting := sp,
        motor_rpm := RPM_SETTINGS sp,
        power := calculate_power_consumption sp s.battery_percentage,
        motor_status := decide (RPM_SETTINGS sp > HIGH_RPM_THRESHOLD),
        gear_ratio := GEAR_RATIOS sp } := by
  unfold set_motor_speed at h
  split_ifs at h with h1 h2 h3 h4
  simp only [Except.ok.injEq, Prod.mk.injEq] at h
  rw [mem_speed_list] at h1
  refine ⟨by omega, by simpa using h2, h3, by simpa using h4, h.1.symm, h.2.symm⟩

lemma set_motor_speed_ok_intro (now sp : ℕ) (s : VehicleState) (hsp : sp ≤ 4)
    (hc : s.is_charging = false) (hb : ¬s.battery_percentage ≤ 0)
    (hp : s.parking_brake = false) :
    set_motor_speed now sp s =
      .ok (⟨sp, RPM_SETTINGS sp, calculate_power_consumption sp s.battery_percentage⟩,
        { s with
          motor_speed_setting := sp,
          motor_rpm := RPM_SETTINGS sp,
          power := calculate_power_consumption sp s.battery_percentage,
          motor_status := decide (RPM_SETTINGS sp > HIGH_RPM_THRESHOLD),
          gear_ratio := GEAR_RATIOS sp }) := by
  unfold set_motor_speed
  rw [if_neg (by rw [mem_speed_list]; omega), if_neg (by simp [hc]), if_neg hb,
    if_neg (by simp [hp])]

lemma toggle_charging_ok_elim {now : ℕ} {b : Bool} {s : VehicleState} {r : ChargingResponse}
    {s' : VehicleState} (h : toggle_charging now b s = .ok (r, s')) :
    ¬(0 < s.motor_speed_setting ∧ b = true) ∧ ¬(100 ≤ s.battery_percentage ∧ b = true) ∧
      r = ⟨b, s.battery_percentage⟩ ∧
      s' = (if b then
        { s with is_charging := b, motor_speed_setting := 0, motor_rpm := 0, power := -5 }
      else { s with is_charging := b, power := 0 }) := by
  unfold toggle_charging at h
  split_ifs at h with h1 h2 hb
  · simp only [Except.ok.injEq, Prod.mk.injEq] at h
    refine ⟨h1, h2, h.1.symm, ?_⟩
    rw [if_pos hb]
    exact h.2.symm
  · simp only [Except.ok.injEq, Prod.mk.injEq] at h
    refine ⟨h1, h2, h.1.symm, ?_⟩
    rw [if_neg hb]
    exact h.2.symm

lemma toggle_charging_ok_intro (now : ℕ) (b : Bool) (s : VehicleState)
    (h1 : ¬(0 < s.motor_speed_setting ∧ b = true))
    (h2 : ¬(100 ≤ s.battery_percentage ∧ b = true)) :
    toggle_charging now b s =
      .ok (⟨b, s.battery_percentage⟩,
        if b then
          { s with is_charging := b, motor_speed_setting := 0, motor_rpm := 0, power := -5 }
        else { s with is_charging := b, power := 0 }) := by
  unfold toggle_charging
  rw [if_neg h1, if_neg h2]
  cases b <;> simp

lemma inv_step (now : ℕ) (c : Cmd) (s : VehicleState) (h : Inv s) : Inv (step now c s) := by
  cases c with
  | tick fb fe => exact inv_tick fb fe now s h
  | setSpeed sp =>
    simp only [step]
    cases heq : set_motor_speed now sp s with
    | error e => exact h
    | ok p =>
      obtain ⟨r, s'⟩ := p
      obtain ⟨hsp, hc, hb, hp, hr, hs'⟩ := set_motor_speed_ok_elim heq
      subst hs'
      constructor <;> simp [hsp, hc, h.battery_lb, h.battery_ub, h.temp_lb, h.temp_ub, h.low_eq]
  | toggleCharging b =>
    simp only [step]
    cases heq : toggle_charging now b s with
    | error e => exact h
    | ok p =>
      obtain ⟨r, s'⟩ := p
      obtain ⟨h1, h2, hr, hs'⟩ := toggle_charging_ok_elim heq
      cases b with
      | false =>
        rw [if_neg (by simp)] at hs'
        subst hs'
        constructor <;>
          simp [h.battery_lb, h.battery_ub, h.temp_lb, h.temp_ub, h.speed_ub, h.rpm_eq,
            h.status_eq, h.low_eq]
      | true =>
        have hsp0 : s.motor_speed_setting = 0 := by
          by_contra hne
          exact h1 ⟨Nat.pos_of_ne_zero hne, rfl⟩
        have hrpm0 : s.motor_rpm = 0 := by
          rw [h.rpm_eq, hsp0]; rfl
        rw [if_pos rfl] at hs'
        subst hs'
        constructor <;>
          simp [h.battery_lb, h.battery_ub, h.temp_lb, h.temp_ub, h.low_eq, h.status_eq,
            hrpm0, RPM_SETTINGS, HIGH_RPM_THRESHOLD]
  | reset => exact inv_default now

lemma inv_run (tr : List (ℕ × Cmd)) (s : VehicleState) (h : Inv s) : Inv (run tr s) := by
  induction tr generalizing s with
  | nil => exact h
  | cons tc rest ih =>
    obtain ⟨t, c⟩ := tc
    exact ih (step t c s) (inv_step t c s h)

lemma reachable_inv (s : VehicleState) (h : Reachable s) : Inv s := by
  obtain ⟨tr, t₀, rfl⟩ := h
  exact inv_run tr _ (inv_default t₀)

lemma calc_power_3_100 : calculate_power_consumption 3 100 = 600 := by
  norm_num [calculate_power_consumption, POWER_CONSUMPTION_RATE, max_def]

lemma set_motor_speed_error_msg {now sp : ℕ} {s : VehicleState} {e : ApiError}
    (h : set_motor_speed now sp s = .error e) :
    errorMessage e ≠ errorMessage .invalidJson := by
  unfold set_motor_speed at h
  split_ifs at h
  all_goals injection h with h
  all_goals subst h
  all_goals decide

lemma toggle_charging_error_msg {now : ℕ} {b : Bool} {s : VehicleState} {e : ApiError}
    (h : toggle_charging now b s = .error e) :
    errorMessage e ≠ errorMessage .invalidJson := by
  unfold toggle_charging at h
  split_ifs at h
  all_goals injection h with h
  all_goals subst h
  all_goals decide

/-! ## Claim theorems -/

/-- C1: For every reachable state produced by any sequence of valid commands
(SetMotorSpeed, ToggleCharging, Reset) and simulation ticks starting from
the default state, `motor_speed_setting > 0` and `is_charging == true` never
hold simultaneously. -/
theorem reachable_charging_motor_mutex (s : VehicleState) (h : Reachable s) :
    ¬(s.motor_speed_setting > 0 ∧ s.is_charging = true) :=
  (reachable_inv s h).mutex

/-- Witness for C1 at a concrete reachable state (set speed 3, try to start
charging, tick). -/
theorem reachable_charging_motor_mutex_witness :
    ¬((run [(1, .setSpeed 3), (2, .toggleCharging true), (3, .tick false true)]
        (default_state 0)).motor_speed_setting > 0 ∧
      (run [(1, .setSpeed 3), (2, .toggleCharging true), (3, .tick false true)]
        (default_state 0)).is_charging = true) :=
  reachable_charging_motor_mutex _ ⟨_, _, rfl⟩

/-- C2: For every reachable state, after any number of simulation ticks and
any sequence of commands starting from the default state,
`battery_percentage` is in `[0, 100]` and `battery_temperature` is in
`[MIN_TEMPERATURE, MAX_TEMPERATURE] = [25, 80]`. -/
theorem reachable_battery_temperature_bounds (s : VehicleState) (h : Reachable s) :
    (0 ≤ s.battery_percentage ∧ s.battery_percentage ≤ 100) ∧
    (MIN_TEMPERATURE ≤ s.battery_temperature ∧ s.battery_temperature ≤ MAX_TEMPERATURE) ∧
    MIN_TEMPERATURE = 25 ∧ MAX_TEMPERATURE = 80 := by
  have hi := reachable_inv s h
  exact ⟨⟨hi.battery_lb, hi.battery_ub⟩, ⟨hi.temp_lb, hi.temp_ub⟩, rfl, rfl⟩

/-- Witness for C2 at a concrete reachable state (drive at speed 4 for two
ticks, then charge for one tick). -/
theorem reachable_battery_temperature_bounds_witness :
    (0 ≤ (run [(1, .setSpeed 4), (2, .tick false false), (3, .tick true false),
          (4, .setSpeed 0), (5, .toggleCharging true), (6, .tick false false)]
          (default_state 0)).battery_percentage ∧
      (run [(1, .setSpeed 4), (2, .tick false false), (3, .tick true false),
          (4, .setSpeed 0), (5, .toggleCharging true), (6, .tick false false)]
          (default_state 0)).battery_percentage ≤ 100) ∧
    (MIN_TEMPERATURE ≤
        (run [(1, .setSpeed 4), (2, .tick false false), (3, .tick true false),
          (4, .setSpeed 0), (5, .toggleCharging true), (6, .tick false false)]
          (default_state 0)).battery_temperature ∧
      (run [(1, .setSpeed 4), (2, .tick false false), (3, .tick true false),
          (4, .setSpeed 0), (5, .toggleCharging true), (6, .tick false false)]
          (default_state 0)).battery_temperature ≤ MAX_TEMPERATURE) ∧
    MIN_TEMPERATURE = 25 ∧ MAX_TEMPERATURE = 80 :=
  reachable_battery_temperature_bounds _ ⟨_, _, rfl⟩

/-- C6: `Reset()` always succeeds from any state, restoring all fields to
the documented defaults, and it is idempotent: a second `Reset()` yields the
same state again. -/
theorem reset_defaults_idempotent (now : ℕ) (s : VehicleState) :
    (reset_state now s).parking_brake = false ∧
    (reset_state now s).check_engine = false ∧
    (reset_state now s).motor_status = false ∧
    (reset_state now s).battery_low = false ∧
    (reset_state now s).is_charging = false ∧
    (reset_state now s).power = 0 ∧
    (reset_state now s).motor_rpm = 0 ∧
    (reset_state now s).gear_ratio = "N/N" ∧
    (reset_state now s).battery_percentage = 100 ∧
    (reset_state now s).battery_temperature = 25 ∧
    (reset_state now s).motor_speed_setting = 0 ∧
    reset_state now (reset_state now s) = reset_state now s :=
  ⟨rfl, rfl, rfl, rfl, rfl, rfl, rfl, rfl, rfl, rfl, rfl, rfl⟩

/-- C7: In every reachable state (hence at every point where a read is
served, since every served snapshot is a reachable state), the derived
flags satisfy `motor_status == (motor_rpm > 3000)` and
`battery_low == (battery_percentage < 20)`. -/
theorem reachable_derived_flags (s : VehicleState) (h : Reachable s) :
    (s.motor_status = true ↔ s.motor_rpm > HIGH_RPM_THRESHOLD) ∧
    (s.battery_low = true ↔ s.battery_percentage < MIN_BATTERY_THRESHOLD) ∧
    HIGH_RPM_THRESHOLD = 3000 ∧ MIN_BATTERY_THRESHOLD = 20 := by
  have hi := reachable_inv s h
  refine ⟨?_, ?_, rfl, rfl⟩
  · rw [hi.status_eq]
    exact decide_eq_true_iff
  · rw [hi.low_eq]
    exact decide_eq_true_iff

/-- Witness for C7 at a concrete reachable state (set speed 3, then tick). -/
theorem reachable_derived_flags_witness :
    ((run [(1, .setSpeed 3), (2, .tick false false)] (default_state 0)).motor_status = true ↔
      (run [(1, .setSpeed 3), (2, .tick false false)] (default_state 0)).motor_rpm >
        HIGH_RPM_THRESHOLD) ∧
    ((run [(1, .setSpeed 3), (2, .tick false false)] (default_state 0)).battery_low = true ↔
      (run [(1, .setSpeed 3), (2, .tick false false)] (default_state 0)).battery_percentage <
        MIN_BATTERY_THRESHOLD) ∧
    HIGH_RPM_THRESHOLD = 3000 ∧ MIN_BATTERY_THRESHOLD = 20 :=
  reachable_derived_flags _ ⟨_, _, rfl⟩

/-- C3: One simulation tick updates battery and temperature exactly as
follows.  If not charging and `motor_speed_setting > 0`:
`power = calculate_power_consumption(setting, battery)` (which returns 0 if
`battery_percentage <= 0`, else `POWER_TABLE[setting] *
max(0.5, battery_percentage/100)`); battery decreases by `power * 0.001`
clamped at 0; temperature rises by at most 0.1 toward
`target_temp = 25 + 55 * setting / 4` without overshooting.  Else if
charging: battery increases by 0.4 if below 20 else 0.2, clamped at 100,
and temperature decreases by 0.05, floored at 25.  Else battery and
temperature are unchanged. -/
theorem tick_battery_temperature_spec (fb fe : Bool) (now : ℕ) (s : VehicleState)
    (sp : ℕ) (b : ℚ) :
    (calculate_power_consumption sp b =
      if b ≤ 0 then 0 else POWER_CONSUMPTION_RATE sp * max 0.5 (b / 100)) ∧
    (s.is_charging = false → 0 < s.motor_speed_setting →
      (tick fb fe now s).battery_percentage =
        max 0 (s.battery_percentage -
          calculate_power_consumption s.motor_speed_setting s.battery_percentage * 0.001) ∧
      (tick fb fe now s).battery_temperature =
        (if s.battery_temperature < 25 + 55 * (s.motor_speed_setting : ℚ) / 4 then
          min (25 + 55 * (s.motor_speed_setting : ℚ) / 4) (s.battery_temperature + 0.1)
        else s.battery_temperature)) ∧
    (s.is_charging = true →
      (tick fb fe now s).battery_percentage =
        min 100 (s.battery_percentage + if s.battery_percentage < 20 then 0.4 else 0.2) ∧
      (tick fb fe now s).battery_temperature = max 25 (s.battery_temperature - 0.05)) ∧
    (s.is_charging = false → s.motor_speed_setting = 0 →
      (tick fb fe now s).battery_percentage = s.battery_percentage ∧
      (tick fb fe now s).battery_temperature = s.battery_temperature) := by
  obtain ⟨hb, ht, -, -, -, -, -, -, -, -⟩ := tick_fields fb fe now s
  refine ⟨rfl, ?_, ?_, ?_⟩
  · intro hc hm
    obtain ⟨hb2, ht2⟩ := tick_physics_driving s hc hm
    constructor
    · rw [hb, hb2, mul_one]
    · rw [ht, ht2]
      norm_num [MIN_TEMPERATURE, MAX_TEMPERATURE]
  · intro hc
    obtain ⟨hb2, ht2⟩ := tick_physics_charging s hc
    constructor
    · rw [hb, hb2]
    · rw [ht, ht2]
      norm_num [MIN_TEMPERATURE]
  · intro hc hm
    rw [hb, ht, tick_physics_idle s hc hm]
    exact ⟨rfl, rfl⟩

/-- Witness for C3: the driving equation at speed 3, the charging equation
at 50% battery, and the idle equation at the default state. -/
theorem tick_battery_temperature_spec_witness :
    ((tick false false 7 driving_state).battery_percentage =
        max 0 (driving_state.battery_percentage -
          calculate_power_consumption driving_state.motor_speed_setting
            driving_state.battery_percentage * 0.001) ∧
      (tick false false 7 driving_state).battery_temperature =
        (if driving_state.battery_temperature <
            25 + 55 * (driving_state.motor_speed_setting : ℚ) / 4 then
          min (25 + 55 * (driving_state.motor_speed_setting : ℚ) / 4)
            (driving_state.battery_temperature + 0.1)
        else driving_state.battery_temperature)) ∧
    ((tick false false 7 charging_state).battery_percentage =
        min 100 (charging_state.battery_percentage +
          if charging_state.battery_percentage < 20 then 0.4 else 0.2) ∧
      (tick false false 7 charging_state).battery_temperature =
        max 25 (charging_state.battery_temperature - 0.05)) ∧
    ((tick false false 7 (default_state 0)).battery_percentage =
        (default_state 0).battery_percentage ∧
      (tick false false 7 (default_state 0)).battery_temperature =
        (default_state 0).battery_temperature) :=
  ⟨(tick_battery_temperature_spec false false 7 driving_state 0 0).2.1 rfl (by decide),
   (tick_battery_temperature_spec false false 7 charging_state 0 0).2.2.1 rfl,
   (tick_battery_temperature_spec false false 7 (default_state 0) 0 0).2.2.2 rfl rfl⟩

/-- C4: `SetMotorSpeed(speed)` fails with an `InvalidArgument` error iff
`speed ∉ {0,1,2,3,4}`; for a valid speed it fails with a
`PreconditionFailed` error iff charging, battery depleted, or parking brake
engaged; otherwise it succeeds with the documented effects and response;
in particular, from the default state `SetMotorSpeed(3)` returns
`current_speed 3`, `rpm 4500`, `power 600`. -/
theorem set_motor_speed_contract (now sp : ℕ) (s : VehicleState) :
    ((∃ e, set_motor_speed now sp s = .error e ∧ isInvalidArgument e = true) ↔
      sp ∉ ({0, 1, 2, 3, 4} : Finset ℕ)) ∧
    (sp ∈ ({0, 1, 2, 3, 4} : Finset ℕ) →
      ((∃ e, set_motor_speed now sp s = .error e ∧ isPreconditionFailed e = true) ↔
        (s.is_charging = true ∨ s.battery_percentage ≤ 0 ∨ s.parking_brake = true))) ∧
    (∀ r s', set_motor_speed now sp s = .ok (r, s') →
      s'.motor_speed_setting = sp ∧
      s'.motor_rpm = RPM_SETTINGS sp ∧
      s'.power = calculate_power_consumption sp s.battery_percentage ∧
      s'.motor_status = decide (s'.motor_rpm > HIGH_RPM_THRESHOLD) ∧
      s'.gear_ratio = GEAR_RATIOS sp ∧
      r.current_speed = sp ∧ r.rpm = s'.motor_rpm ∧ r.power = s'.power) ∧
    (sp ∈ ({0, 1, 2, 3, 4} : Finset ℕ) → s.is_charging = false →
      ¬s.battery_percentage ≤ 0 → s.parking_brake = false →
      ∃ r s', set_motor_speed now sp s = .ok (r, s')) ∧
    set_motor_speed now 3 (default_state 0) =
      .ok (⟨3, 4500, 600⟩,
        { default_state 0 with
          motor_speed_setting := 3, motor_rpm := 4500, power := 600,
          motor_status := true, gear_ratio := "8.1:1" }) := by
  refine ⟨?_, ?_, ?_, ?_, ?_⟩
  · rw [show (sp ∉ ({0, 1, 2, 3, 4} : Finset ℕ)) ↔ ¬sp ≤ 4 by rw [mem_speed_finset]]
    unfold set_motor_speed
    split_ifs with h1 h2 h3 h4 <;> simp_all [mem_speed_list, isInvalidArgument] <;> omega
  · intro hmem
    rw [mem_speed_finset] at hmem
    unfold set_motor_speed
    split_ifs with h1 h2 h3 h4
    · simp [isPreconditionFailed, h2]
    · simp [isPreconditionFailed, h3]
    · simp [isPreconditionFailed, h4]
    · constructor
      · rintro ⟨e, he, -⟩
        exact absurd he (by simp)
      · intro hdisj
        rcases hdisj with hd | hd | hd
        · exact absurd hd h2
        · exact absurd hd h3
        · exact absurd hd h4
    · exact absurd ((mem_speed_list sp).mpr hmem) h1
  · intro r s' h
    obtain ⟨hsp, hc, hb, hp, hr, hs'⟩ := set_motor_speed_ok_elim h
    subst hr hs'
    simp
  · intro hmem hc hb hp
    exact ⟨_, _, set_motor_speed_ok_intro now sp s ((mem_speed_finset sp).mp hmem) hc hb hp⟩
  · rw [set_motor_speed_ok_intro now 3 (default_state 0) (by omega) rfl
      (by norm_num [default_state]) rfl]
    simp only [default_state, calc_power_3_100]
    norm_num [RPM_SETTINGS, GEAR_RATIOS, HIGH_RPM_THRESHOLD]

/-- Witness for C4 at the default state with speed 3: the precondition iff,
the success effects, and existence of the success result. -/
theorem set_motor_speed_contract_witness :
    ((∃ e, set_motor_speed 0 3 (default_state 0) = .error e ∧ isPreconditionFailed e = true) ↔
      ((default_state 0).is_charging = true ∨ (default_state 0).battery_percentage ≤ 0 ∨
        (default_state 0).parking_brake = true)) ∧
    (({ default_state 0 with
        motor_speed_setting := 3, motor_rpm := 4500, power := 600,
        motor_status := true, gear_ratio := "8.1:1" } : VehicleState).motor_speed_setting = 3 ∧
      ({ default_state 0 with
        motor_speed_setting := 3, motor_rpm := 4500, power := 600,
        motor_status := true, gear_ratio := "8.1:1" } : VehicleState).motor_rpm =
          RPM_SETTINGS 3 ∧
      ({ default_state 0 with
        motor_speed_setting := 3, motor_rpm := 4500, power := 600,
        motor_status := true, gear_ratio := "8.1:1" } : VehicleState).power =
          calculate_power_consumption 3 (default_state 0).battery_percentage ∧
      ({ default_state 0 with
        motor_speed_setting := 3, motor_rpm := 4500, power := 600,
        motor_status := true, gear_ratio := "8.1:1" } : VehicleState).motor_status =
          decide (({ default_state 0 with
            motor_speed_setting := 3, motor_rpm := 4500, power := 600,
            motor_status := true, gear_ratio := "8.1:1" } : VehicleState).motor_rpm >
              HIGH_RPM_THRESHOLD) ∧
      ({ default_state 0 with
        motor_speed_setting := 3, motor_rpm := 4500, power := 600,
        motor_status := true, gear_ratio := "8.1:1" } : VehicleState).gear_ratio =
          GEAR_RATIOS 3 ∧
      (⟨3, 4500, 600⟩ : SpeedResponse).current_speed = 3 ∧
      (⟨3, 4500, 600⟩ : SpeedResponse).rpm =
        ({ default_state 0 with
          motor_speed_setting := 3, motor_rpm := 4500, power := 600,
          motor_status := true, gear_ratio := "8.1:1" } : VehicleState).motor_rpm ∧
      (⟨3, 4500, 600⟩ : SpeedResponse).power =
        ({ default_state 0 with
          motor_speed_setting := 3, motor_rpm := 4500, power := 600,
          motor_status := true, gear_ratio := "8.1:1" } : VehicleState).power) ∧
    (∃ r s', set_motor_speed 0 3 (default_state 0) = .ok (r, s')) :=
  have h := set_motor_speed_contract 0 3 (default_state 0)
  ⟨h.2.1 (by decide), h.2.2.1 _ _ h.2.2.2.2,
    h.2.2.2.1 (by decide) rfl (by norm_num [default_state]) rfl⟩

/-- C5: `ToggleCharging(charging)` fails with a `PreconditionFailed` error
iff `charging == true` and (`motor_speed_setting > 0` or
`battery_percentage >= 100`); on success with `charging == true` it sets
`is_charging = true`, `motor_speed_setting = 0`, `motor_rpm = 0`,
`power = -5`; on success with `charging == false` it sets
`is_charging = false`, `power = 0`; in both success cases it returns the
charging flag and the current battery percentage. -/
theorem toggle_charging_contract (now : ℕ) (b : Bool) (s : VehicleState) :
    ((∃ e, toggle_charging now b s = .error e ∧ isPreconditionFailed e = true) ↔
      (b = true ∧ (0 < s.motor_speed_setting ∨ 100 ≤ s.battery_percentage))) ∧
    (¬(b = true ∧ (0 < s.motor_speed_setting ∨ 100 ≤ s.battery_percentage)) →
      ∃ r s', toggle_charging now b s = .ok (r, s')) ∧
    (∀ r s', toggle_charging now b s = .ok (r, s') → b = true →
      s'.is_charging = true ∧ s'.motor_speed_setting = 0 ∧ s'.motor_rpm = 0 ∧
        s'.power = -5) ∧
    (∀ r s', toggle_charging now b s = .ok (r, s') → b = false →
      s'.is_charging = false ∧ s'.power = 0) ∧
    (∀ r s', toggle_charging now b s = .ok (r, s') →
      r.is_charging = b ∧ r.battery_percentage = s.battery_percentage) := by
  refine ⟨?_, ?_, ?_, ?_, ?_⟩
  · unfold toggle_charging
    split_ifs with h1 h2
    · simp [isPreconditionFailed, h1.1, h1.2]
    · simp [isPreconditionFailed, h2.1, h2.2]
    all_goals constructor
    all_goals first
      | (rintro ⟨e, he, -⟩
         exact absurd he (by simp))
      | (rintro ⟨hb', hd⟩
         rcases hd with hd | hd
         · exact absurd ⟨hd, hb'⟩ h1
         · exact absurd ⟨hd, hb'⟩ h2)
  · intro h
    refine ⟨_, _, toggle_charging_ok_intro now b s ?_ ?_⟩
    · rintro ⟨hsp, hb'⟩
      exact h ⟨hb', Or.inl hsp⟩
    · rintro ⟨hbat, hb'⟩
      exact h ⟨hb', Or.inr hbat⟩
  · intro r s' h hb
    obtain ⟨h1, h2, hr, hs'⟩ := toggle_charging_ok_elim h
    subst hb
    rw [if_pos rfl] at hs'
    subst hs'
    simp
  · intro r s' h hb
    obtain ⟨h1, h2, hr, hs'⟩ := toggle_charging_ok_elim h
    subst hb
    rw [if_neg (by simp)] at hs'
    subst hs'
    simp
  · intro r s' h
    obtain ⟨h1, h2, hr, hs'⟩ := toggle_charging_ok_elim h
    subst hr
    exact ⟨rfl, rfl⟩

/-- Witness for C5: disabling charging succeeds at the default state;
enabling charging at 50% battery applies the documented effects and
response; disabling applies the documented effects. -/
theorem toggle_charging_contract_witness :
    (∃ r s', toggle_charging 0 false (default_state 0) = .ok (r, s')) ∧
    (({ charging_state with
        is_charging := true, motor_speed_setting := 0, motor_rpm := 0,
        power := -5 } : VehicleState).is_charging = true ∧
      ({ charging_state with
        is_charging := true, motor_speed_setting := 0, motor_rpm := 0,
        power := -5 } : VehicleState).motor_speed_setting = 0 ∧
      ({ charging_state with
        is_charging := true, motor_speed_setting := 0, motor_rpm := 0,
        power := -5 } : VehicleState).motor_rpm = 0 ∧
      ({ charging_state with
        is_charging := true, motor_speed_setting := 0, motor_rpm := 0,
        power := -5 } : VehicleState).power = -5) ∧
    (({ default_state 0 with is_charging := false, power := 0 } : VehicleState).is_charging =
        false ∧
      ({ default_state 0 with is_charging := false, power := 0 } : VehicleState).power = 0) ∧
    ((⟨true, charging_state.battery_percentage⟩ : ChargingResponse).is_charging = true ∧
      (⟨true, charging_state.battery_percentage⟩ : ChargingResponse).battery_percentage =
        charging_state.battery_percentage) :=
  have h := toggle_charging_contract 0 true charging_state
  have h' := toggle_charging_contract 0 false (default_state 0)
  have hok : toggle_charging 0 true charging_state =
      .ok (⟨true, charging_state.battery_percentage⟩,
        { charging_state with
          is_charging := true, motor_speed_setting := 0, motor_rpm := 0, power := -5 }) := rfl
  have hok' : toggle_charging 0 false (default_state 0) =
      .ok (⟨false, (default_state 0).battery_percentage⟩,
        { default_state 0 with is_charging := false, power := 0 }) := rfl
  ⟨h'.2.1 (by simp), h.2.2.1 _ _ hok rfl, h'.2.2.2.1 _ _ hok' rfl, h.2.2.2.2 _ _ hok⟩

/-- C8 counterexample: at mutation time 7, a successful `SetMotorSpeed(3)`
from the default state (whose `last_update` is 0) leaves `last_update` at 0
instead of setting it to 7 — the handler never writes `last_update`. -/
theorem command_last_update_counterexample :
    Except.map (fun p => p.2.last_update) (set_motor_speed 7 3 (default_state 0)) = .ok 0 ∧
    (0 : ℕ) ≠ 7 :=
  ⟨rfl, by decide⟩

/-- C8 (amended): each simulation tick and each `Reset` set `last_update`
to the time of that mutation; successful `SetMotorSpeed` and
`ToggleCharging` leave `last_update` unchanged. -/
theorem mutation_last_update_amended (now : ℕ) :
    (∀ fb fe s, (tick fb fe now s).last_update = now) ∧
    (∀ s, (reset_state now s).last_update = now) ∧
    (∀ sp s r s', set_motor_speed now sp s = .ok (r, s') →
      s'.last_update = s.last_update) ∧
    (∀ b s r' s'', toggle_charging now b s = .ok (r', s'') →
      s''.last_update = s.last_update) := by
  refine ⟨?_, fun _ => rfl, ?_, ?_⟩
  · intro fb fe s
    obtain ⟨-, -, -, -, -, -, -, -, -, hlu⟩ := tick_fields fb fe now s
    exact hlu
  · intro sp s r s' h
    obtain ⟨-, -, -, -, -, hs'⟩ := set_motor_speed_ok_elim h
    subst hs'
    rfl
  · intro b s r' s'' h
    obtain ⟨-, -, -, hs'⟩ := toggle_charging_ok_elim h
    subst hs'
    cases b <;> simp

/-- Witness for C8 (amended): the tick and reset stamps at time 9, and the
unchanged timestamps of a concrete successful `SetMotorSpeed(3)` and
`ToggleCharging(true)`. -/
theorem mutation_last_update_amended_witness :
    (tick true false 9 (default_state 0)).last_update = 9 ∧
    (reset_state 9 (default_state 0)).last_update = 9 ∧
    ({ default_state 0 with
        motor_speed_setting := 3, motor_rpm := RPM_SETTINGS 3,
        power := calculate_power_consumption 3 (default_state 0).battery_percentage,
        motor_status := decide (RPM_SETTINGS 3 > HIGH_RPM_THRESHOLD),
        gear_ratio := GEAR_RATIOS 3 } : VehicleState).last_update =
      (default_state 0).last_update ∧
    ({ charging_state with
        is_charging := true, motor_speed_setting := 0, motor_rpm := 0,
        power := -5 } : VehicleState).last_update = charging_state.last_update :=
  have h := mutation_last_update_amended 9
  have hok := set_motor_speed_ok_intro 9 3 (default_state 0) (by omega) rfl
    (by norm_num [default_state]) rfl
  have hok' : toggle_charging 9 true charging_state =
      .ok (⟨true, charging_state.battery_percentage⟩,
        { charging_state with
          is_charging := true, motor_speed_setting := 0, motor_rpm := 0, power := -5 }) := rfl
  ⟨h.1 true false (default_state 0), h.2.1 (default_state 0),
    h.2.2.1 3 (default_state 0) _ _ hok, h.2.2.2 true charging_state _ _ hok'⟩

/-- C10: a JSON object body that omits the expected key is not rejected:
`POST /api/vehicle/motor-speed` without a `"speed"` key behaves exactly as
`SetMotorSpeed(0)` and `POST /api/vehicle/charging` without a `"charging"`
key behaves exactly as `ToggleCharging(false)`; no object body ever yields
the 400 `Invalid JSON payload` error (only a non-object body can). -/
theorem missing_json_key_defaults (now : ℕ) (s : VehicleState)
    (fields : List (String × JsonValue)) :
    (fields.lookup "speed" = none →
      http_set_motor_speed now (.obj fields) s = liftResult (set_motor_speed now 0 s) s) ∧
    (fields.lookup "charging" = none →
      http_toggle_charging now (.obj fields) s =
        liftResult (toggle_charging now false s) s) ∧
    (http_set_motor_speed now (.obj fields) s).1 ≠
      .clientError (errorMessage .invalidJson) ∧
    (http_toggle_charging now (.obj fields) s).1 ≠
      .clientError (errorMessage .invalidJson) := by
  refine ⟨?_, ?_, ?_, ?_⟩
  · intro h
    simp [http_set_motor_speed, pyGet, h, speedIndex]
  · intro h
    simp [http_toggle_charging, pyGet, h, jsonTruthy]
  · cases hval : speedIndex (pyGet fields "speed" (.int 0)) with
    | none =>
      have hre : http_set_motor_speed now (.obj fields) s =
          (.clientError (errorMessage .invalidSpeed), s) := by
        simp [http_set_motor_speed, hval]
      rw [hre]
      exact (by decide :
        (HttpResponse.clientError (errorMessage ApiError.invalidSpeed) :
            HttpResponse SpeedResponse) ≠
          HttpResponse.clientError (errorMessage ApiError.invalidJson))
    | some n =>
      have hre : http_set_motor_speed now (.obj fields) s =
          liftResult (set_motor_speed now n s) s := by
        simp [http_set_motor_speed, hval]
      rw [hre]
      cases hres : set_motor_speed now n s with
      | ok p =>
        obtain ⟨r, s'⟩ := p
        simp [liftResult]
      | error e =>
        simp only [liftResult]
        intro hcontra
        injection hcontra with hmsg
        exact set_motor_speed_error_msg hres hmsg
  · have hre : http_toggle_charging now (.obj fields) s =
        liftResult
          (toggle_charging now (jsonTruthy (pyGet fields "charging" (.bool false))) s) s := rfl
    rw [hre]
    cases hres : toggle_charging now (jsonTruthy (pyGet fields "charging" (.bool false))) s with
    | ok p =>
      obtain ⟨r, s'⟩ := p
      simp [liftResult]
    | error e =>
      simp only [liftResult]
      intro hcontra
      injection hcontra with hmsg
      exact toggle_charging_error_msg hres hmsg

/-- Witness for C10: the empty JSON object, which lacks both keys, behaves
as `SetMotorSpeed(0)` and `ToggleCharging(false)` at the default state. -/
theorem missing_json_key_defaults_witness :
    http_set_motor_speed 0 (.obj []) (default_state 0) =
      liftResult (set_motor_speed 0 0 (default_state 0)) (default_state 0) ∧
    http_toggle_charging 0 (.obj []) (default_state 0) =
      liftResult (toggle_charging 0 false (default_state 0)) (default_state 0) :=
  ⟨(missing_json_key_defaults 0 (default_state 0) []).1 rfl,
   (missing_json_key_defaults 0 (default_state 0) []).2.1 rfl⟩

end EV
